import Mathlib

/-!
Verification of the CyberSaga generation/validation pipeline and profile tracker.

The Python sources are shallowly embedded:
  * `agent.py` — the JSON extraction and schema validation performed by
    `generate_decision_points`, `generate_decision_point` and
    `generate_knowledge_assessment` on the raw model text.  The network call is
    an external collaborator, so each operation is modelled as a function of
    the model's response text.  Python exceptions that are caught and turned
    into a `None`/fallback result are modelled by `Option`/a fallback value.
  * `json.loads` — a strict-mode JSON parser over `List Char` (numbers keep
    their lexeme, since the code never inspects numeric values; the CPython
    extras `NaN`/`Infinity`/`-Infinity` are accepted).  Lone surrogate
    `\uXXXX` escapes, which CPython keeps, are mapped to U+FFFD since Lean
    `Char` excludes surrogates; no claim depends on such values.
  * the `re` patterns used by `agent.py` — modelled with Python's leftmost /
    greedy / lazy semantics; `\s` is modelled over the ASCII whitespace
    characters (non-ASCII Unicode whitespace is not modelled).
  * `user_profile.py` — dictionaries become association lists, `datetime.now`
    becomes an explicit `now` argument, file persistence (`save`/`_load_profile`)
    is modelled by its only in-memory effect (refreshing `last_updated`).
  * `scenarios.py` and `prompts.py` — direct transliterations.
-/

set_option maxRecDepth 8192

/-! ## Association-list model of Python dictionaries -/

/-- `key in d` for a Python dict. -/
def containsKey {α : Type} (l : List (String × α)) (k : String) : Bool :=
  l.any fun kv => kv.1 == k

/-- `d.get(key)` / `d[key]` lookup for a Python dict (keys are unique). -/
def dictGet? {α : Type} (l : List (String × α)) (k : String) : Option α :=
  match l with
  | [] => none
  | (k', v) :: rest => if k' = k then some v else dictGet? rest k

/-- `d[key] = value` on a Python dict: replace in place if the key exists
(keeping its position), otherwise append. -/
def dictSet {α : Type} (l : List (String × α)) (k : String) (v : α) :
    List (String × α) :=
  match l with
  | [] => [(k, v)]
  | (k', v') :: rest => if k' = k then (k', v) :: rest else (k', v') :: dictSet rest k v

/-- `if key in d: d[key] = value` — assignment guarded by membership. -/
def dictSetIfPresent {α : Type} (l : List (String × α)) (k : String) (v : α) :
    List (String × α) :=
  match l with
  | [] => []
  | (k', v') :: rest =>
    if k' = k then (k', v) :: rest else (k', v') :: dictSetIfPresent rest k v

/-! ## JSON values (`json.loads` results) -/

/-- A parsed JSON value.  Numbers keep their source lexeme: the pipeline never
inspects a numeric value, only truthiness, which `jsonNumIsZero` recovers. -/
inductive JVal where
  | null : JVal
  | bool : Bool → JVal
  | num : String → JVal
  | str : String → JVal
  | arr : List JVal → JVal
  | obj : List (String × JVal) → JVal

/-- JSON whitespace accepted by `json.loads` between tokens. -/
def isJsonWs (c : Char) : Bool :=
  c = ' ' || c = '\t' || c = '\n' || c = '\r'

/-- ASCII characters matched by the regex class `\s` and stripped by Python's
`str.strip()`. -/
def isWsChar (c : Char) : Bool :=
  c = ' ' || c = '\t' || c = '\n' || c = '\r' || c = '\x0b' || c = '\x0c'

/-- Value of a hex digit, if any. -/
def hexVal? (c : Char) : Option Nat :=
  if '0' ≤ c ∧ c ≤ '9' then some (c.toNat - '0'.toNat)
  else if 'a' ≤ c ∧ c ≤ 'f' then some (c.toNat - 'a'.toNat + 10)
  else if 'A' ≤ c ∧ c ≤ 'F' then some (c.toNat - 'A'.toNat + 10)
  else none

/-- Four hex digits to a code point. -/
def hexQuad? (a b c d : Char) : Option Nat :=
  match hexVal? a, hexVal? b, hexVal? c, hexVal? d with
  | some x, some y, some z, some w => some (((x * 16 + y) * 16 + z) * 16 + w)
  | _, _, _, _ => none

/-- Code point to `Char`; lone surrogates (which CPython would keep in the
`str`) are mapped to U+FFFD because Lean `Char` excludes them. -/
def codeToChar (n : Nat) : Char :=
  if n < 0xD800 then Char.ofNat n
  else if 0xE000 ≤ n ∧ n < 0x110000 then Char.ofNat n
  else Char.ofNat 0xFFFD

/-- Body of a JSON string after the opening quote, in CPython strict mode:
raw control characters are rejected, the eight short escapes and `\uXXXX`
(with surrogate-pair combining) are accepted.  The fuel is structural so the
kernel can evaluate the function; one unit per consumed character suffices. -/
def parseJStringAux : Nat → List Char → List Char → Option (String × List Char)
  | 0, _, _ => none
  | _, _, [] => none
  | Nat.succ fuel, acc, c :: rest =>
    if c = '"' then some (acc.reverse.asString, rest)
    else if c = '\\' then
      match rest with
      | [] => none
      | e :: rest2 =>
        if e = '"' then parseJStringAux fuel ('"' :: acc) rest2
        else if e = '\\' then parseJStringAux fuel ('\\' :: acc) rest2
        else if e = '/' then parseJStringAux fuel ('/' :: acc) rest2
        else if e = 'b' then parseJStringAux fuel ('\x08' :: acc) rest2
        else if e = 'f' then parseJStringAux fuel ('\x0c' :: acc) rest2
        else if e = 'n' then parseJStringAux fuel ('\n' :: acc) rest2
        else if e = 'r' then parseJStringAux fuel ('\r' :: acc) rest2
        else if e = 't' then parseJStringAux fuel ('\t' :: acc) rest2
        else if e = 'u' then
          match rest2 with
          | h1 :: h2 :: h3 :: h4 :: rest3 =>
            match hexQuad? h1 h2 h3 h4 with
            | some n =>
              if 0xD800 ≤ n ∧ n ≤ 0xDBFF then
                match rest3 with
                | e2 :: u2 :: g1 :: g2 :: g3 :: g4 :: rest4 =>
                  if e2 = '\\' ∧ u2 = 'u' then
                    match hexQuad? g1 g2 g3 g4 with
                    | some m =>
                      if 0xDC00 ≤ m ∧ m ≤ 0xDFFF then
                        parseJStringAux fuel
                          (codeToChar (0x10000 + (n - 0xD800) * 1024 + (m - 0xDC00)) :: acc)
                          rest4
                      else parseJStringAux fuel (codeToChar n :: acc) rest3
                    | none => parseJStringAux fuel (codeToChar n :: acc) rest3
                  else parseJStringAux fuel (codeToChar n :: acc) rest3
                | _ => parseJStringAux fuel (codeToChar n :: acc) rest3
              else parseJStringAux fuel (codeToChar n :: acc) rest3
            | none => none
          | _ => none
        else none
    else if c.toNat < 0x20 then none
    else parseJStringAux fuel (c :: acc) rest

/-- Digit run split. -/
def digitSpan (cs : List Char) : List Char × List Char :=
  (cs.takeWhile Char.isDigit, cs.dropWhile Char.isDigit)

/-- JSON integer part: `0` or a nonzero digit followed by digits. -/
def parseIntPart : List Char → Option (List Char × List Char)
  | [] => none
  | c :: rest =>
    if c = '0' then some (['0'], rest)
    else if c.isDigit then
      match digitSpan rest with
      | (d, r) => some (c :: d, r)
    else none

/-- Optional JSON fraction part `.digits`. -/
def parseFracPart (cs : List Char) : Option (List Char × List Char) :=
  match cs with
  | '.' :: rest =>
    match digitSpan rest with
    | (d, r) => if d.isEmpty then none else some ('.' :: d, r)
  | _ => some ([], cs)

/-- Optional JSON exponent part `[eE][+-]?digits`. -/
def parseExpPart (cs : List Char) : Option (List Char × List Char) :=
  match cs with
  | c :: rest =>
    if c = 'e' ∨ c = 'E' then
      match rest with
      | s :: r =>
        if s = '+' ∨ s = '-' then
          match digitSpan r with
          | (d, r2) => if d.isEmpty then none else some (c :: s :: d, r2)
        else
          match digitSpan rest with
          | (d, r2) => if d.isEmpty then none else some (c :: d, r2)
      | [] => none
    else some ([], cs)
  | [] => some ([], cs)

/-- A JSON number per `json.decoder.NUMBER_RE`; the lexeme is kept. -/
def parseNumber (cs : List Char) : Option (String × List Char) :=
  match cs with
  | '-' :: rest =>
    match parseIntPart rest with
    | none => none
    | some (ip, r1) =>
      match parseFracPart r1 with
      | none => none
      | some (fp, r2) =>
        match parseExpPart r2 with
        | none => none
        | some (ep, r3) => some (('-' :: (ip ++ fp ++ ep)).asString, r3)
  | _ =>
    match parseIntPart cs with
    | none => none
    | some (ip, r1) =>
      match parseFracPart r1 with
      | none => none
      | some (fp, r2) =>
        match parseExpPart r2 with
        | none => none
        | some (ep, r3) => some ((ip ++ fp ++ ep).asString, r3)

/-- Strip a literal token. -/
def stripLit (lit cs : List Char) : Option (List Char) :=
  if List.isPrefixOf lit cs then some (cs.drop lit.length) else none

/-- Parser mode: a value, the items of an array, or the members of an object. -/
inductive PMode where
  | val : PMode
  | arrItems : List JVal → PMode
  | objItems : List (String × JVal) → PMode

/-- One recursive-descent JSON parser (CPython `json.loads` grammar, plus the
`NaN`/`Infinity`/`-Infinity` constants CPython accepts by default).  The fuel
is structural so that the kernel can evaluate the parser. -/
def parseStep : Nat → PMode → List Char → Option (JVal × List Char)
  | 0, _, _ => none
  | Nat.succ fuel, PMode.val, cs0 =>
    match cs0.dropWhile isJsonWs with
    | '"' :: rest =>
      match parseJStringAux (rest.length + 1) [] rest with
      | some (s, r) => some (JVal.str s, r)
      | none => none
    | '{' :: rest =>
      (match rest.dropWhile isJsonWs with
       | '}' :: r2 => some (JVal.obj [], r2)
       | r => parseStep fuel (PMode.objItems []) r)
    | '[' :: rest =>
      (match rest.dropWhile isJsonWs with
       | ']' :: r2 => some (JVal.arr [], r2)
       | r => parseStep fuel (PMode.arrItems []) r)
    | cs =>
      match stripLit ("true").toList cs with
      | some r => some (JVal.bool true, r)
      | none =>
      match stripLit ("false").toList cs with
      | some r => some (JVal.bool false, r)
      | none =>
      match stripLit ("null").toList cs with
      | some r => some (JVal.null, r)
      | none =>
      match stripLit ("NaN").toList cs with
      | some r => some (JVal.num "NaN", r)
      | none =>
      match stripLit ("Infinity").toList cs with
      | some r => some (JVal.num "Infinity", r)
      | none =>
      match stripLit ("-Infinity").toList cs with
      | some r => some (JVal.num "-Infinity", r)
      | none =>
      match parseNumber cs with
      | some (lex, r) => some (JVal.num lex, r)
      | none => none
  | Nat.succ fuel, PMode.arrItems acc, cs =>
    match parseStep fuel PMode.val cs with
    | none => none
    | some (v, r) =>
      match r.dropWhile isJsonWs with
      | ',' :: r3 => parseStep fuel (PMode.arrItems (acc ++ [v])) r3
      | ']' :: r3 => some (JVal.arr (acc ++ [v]), r3)
      | _ => none
  | Nat.succ fuel, PMode.objItems acc, cs0 =>
    match cs0.dropWhile isJsonWs with
    | '"' :: rest =>
      match parseJStringAux (rest.length + 1) [] rest with
      | none => none
      | some (k, r) =>
        match r.dropWhile isJsonWs with
        | ':' :: r3 =>
          match parseStep fuel PMode.val r3 with
          | none => none
          | some (v, r4) =>
            match r4.dropWhile isJsonWs with
            | ',' :: r6 => parseStep fuel (PMode.objItems (dictSet acc k v)) r6
            | '}' :: r6 => some (JVal.obj (dictSet acc k v), r6)
            | _ => none
        | _ => none
    | _ => none

/-- `json.loads`: parse one value and require only whitespace afterwards. -/
def json_loads_l (cs : List Char) : Option JVal :=
  match parseStep (2 * cs.length + 2) PMode.val cs with
  | some (j, rest) => if (rest.dropWhile isJsonWs).isEmpty then some j else none
  | none => none

/-! ## Models of the `re` operations used by `agent.py` -/

/-- Both ends of `str.strip()` / the trimming done by `\s*` around a lazy
group, over a given whitespace class. -/
def trimBy (p : Char → Bool) (cs : List Char) : List Char :=
  ((cs.dropWhile p).reverse.dropWhile p).reverse

/-- Index of the first non-`p` character at or after `i` (the end of the
greedy `\s*` run starting at `i`). -/
def wsRunEnd (cs : List Char) (i : Nat) : Nat :=
  i + ((cs.drop i).takeWhile isWsChar).length

/-- Does `pat` occur at position `i`? -/
def matchAt (cs pat : List Char) (i : Nat) : Bool :=
  List.isPrefixOf pat (cs.drop i)

/-- After `[` at position `i`: skip `\s*`, require `{`; returns the position
right after the `{`. -/
def bracketStartOk (cs : List Char) (i : Nat) : Option Nat :=
  if (cs.drop i).head? = some '[' then
    let w := wsRunEnd cs (i + 1)
    if (cs.drop w).head? = some '{' then some (w + 1) else none
  else none

/-- Greedy `.*}\s*]` (DOTALL): the largest `r ≥ q` with `}` at `r` followed by
`\s*` and `]`; returns the index just past the `]`. -/
def bracketEndFrom (cs : List Char) (q : Nat) : Option Nat :=
  ((List.range cs.length).reverse.find? fun r =>
      decide (q ≤ r) && ((cs.drop r).head? == some '}')
        && ((cs.drop (wsRunEnd cs (r + 1))).head? == some ']')).map
    fun r => wsRunEnd cs (r + 1) + 1

/-- Can the whole pattern match starting at `i`? -/
def bracketMatchOk (cs : List Char) (i : Nat) : Bool :=
  match bracketStartOk cs i with
  | some q => (bracketEndFrom cs q).isSome
  | none => false

/-- End of the greedy match starting at `i` (meaningful when `bracketMatchOk`). -/
def bracketEnd (cs : List Char) (i : Nat) : Nat :=
  match bracketStartOk cs i with
  | some q => (bracketEndFrom cs q).getD 0
  | none => 0

/-- `re.search(r'\[\s*{.*}\s*\]', content, re.DOTALL)`: leftmost start, greedy
extent; returns the matched substring (`group(0)`). -/
def bracketSearch (cs : List Char) : Option (List Char) :=
  match (List.range cs.length).find? (fun i => bracketMatchOk cs i) with
  | some i => some ((cs.drop i).take (bracketEnd cs i - i))
  | none => none

/-- `re.sub(r'```json|```', '', content)`: scan left to right, removing each
occurrence, preferring the `json`-labeled marker at the same position.
Fuel is structural (one unit per removal or kept character). -/
def removeFencesAux : Nat → List Char → List Char
  | 0, cs => cs
  | Nat.succ fuel, cs =>
    match cs with
    | [] => []
    | c :: rest =>
      if List.isPrefixOf ("```json").toList cs then removeFencesAux fuel (cs.drop 7)
      else if List.isPrefixOf ("```").toList cs then removeFencesAux fuel (cs.drop 3)
      else c :: removeFencesAux fuel rest

def removeFences (cs : List Char) : List Char :=
  removeFencesAux cs.length cs

/-- First occurrence of ``` ``` ``` at or after `i`. -/
def findTripleTick (cs : List Char) (i : Nat) : Option Nat :=
  (List.range cs.length).find? fun m =>
    decide (i ≤ m) && matchAt cs (("```").toList) m

/-- `re.search(r'```json\s*(.*?)\s*```', content, re.DOTALL).group(1)`:
the leftmost ```` ```json ```` with a later closing ``` ``` ``` wins; the lazy
group is the interior with the surrounding whitespace captured by the two
greedy `\s*`, i.e. the trimmed interior. -/
def findFenceJson (cs : List Char) : Option (List Char) :=
  match (List.range cs.length).find? (fun p =>
      matchAt cs (("```json").toList) p && (findTripleTick cs (p + 7)).isSome) with
  | some p =>
    match findTripleTick cs (p + 7) with
    | some m => some (trimBy isWsChar ((cs.drop (p + 7)).take (m - (p + 7))))
    | none => none
  | none => none

/-! ## Schema validation (`agent.py`) -/

/-- Python's `key in x` for the values the validators meet.  For a dict it is
key lookup, for a `str` a substring test, for a `list` an element-equality
test.  For the remaining values CPython raises `TypeError`; every use site
sits in a `try` whose handler produces the same failure result as a `False`
membership test does, so the collapse to `false` is behaviour-preserving. -/
def isSubstrOf (pat s : List Char) : Bool :=
  (List.range (s.length + 1)).any fun i => List.isPrefixOf pat (s.drop i)

def pyMem (k : String) (j : JVal) : Bool :=
  match j with
  | JVal.obj f => containsKey f k
  | JVal.str s => isSubstrOf k.toList s.toList
  | JVal.arr es => es.any fun e =>
      match e with
      | JVal.str s => s == k
      | _ => false
  | _ => false

/-- Python truthiness of a JSON-decoded value (`bool(x)`). -/
def jsonNumIsZero (lex : String) : Bool :=
  let m := lex.toList.takeWhile fun c => !(c = 'e' || c = 'E')
  (m.any Char.isDigit) && m.all fun c => !c.isDigit || c == '0'

def pyTruthy : JVal → Bool
  | JVal.null => false
  | JVal.bool b => b
  | JVal.num lex => !jsonNumIsZero lex
  | JVal.str s => !(s == "")
  | JVal.arr l => !l.isEmpty
  | JVal.obj f => !f.isEmpty

/-- The per-option check of `generate_decision_points` /
`generate_decision_point`: `all(key in option for key in ["text", "is_correct"])`.
Nothing else is checked — in particular no option needs to be marked correct. -/
def optionOk (o : JVal) : Bool :=
  pyMem "text" o && pyMem "is_correct" o

/-- The per-point check of `generate_decision_points` (lines 134-145): the
keys `question` and `options` must be present, `options` must be a list of at
least 2 entries, each passing `optionOk`.  A non-dict point either fails the
membership test or raises at `point["options"]`; both produce the overall
`None` result, so the collapse to `false` is behaviour-preserving. -/
def pointOk (p : JVal) : Bool :=
  match p with
  | JVal.obj f =>
    containsKey f "question" && containsKey f "options" &&
    (match dictGet? f "options" with
     | some (JVal.arr opts) => decide (2 ≤ opts.length) && opts.all optionOk
     | _ => false)
  | _ => false

/-- Structure validation of `generate_decision_points` (lines 129-147):
reject non-lists and empty lists, then check every point. -/
def validate_decision_points (j : JVal) : Option JVal :=
  match j with
  | JVal.arr pts =>
    if pts.length < 1 then none
    else if pts.all pointOk then some (JVal.arr pts) else none
  | _ => none

/-- Structure validation of `generate_decision_point` (lines 192-205): like a
single point but `html_content` is also required.  A non-dict either fails the
membership tests or raises at `decision_point["options"]`; both produce
`None`. -/
def validate_decision_point (dp : JVal) : Option JVal :=
  match dp with
  | JVal.obj f =>
    if containsKey f "question" && containsKey f "options"
        && containsKey f "html_content" then
      match dictGet? f "options" with
      | some (JVal.arr opts) =>
        if decide (2 ≤ opts.length) && opts.all optionOk then some dp else none
      | _ => none
    else none
  | _ => none

/-- Is the value a dict?  In `generate_knowledge_assessment` every option must
be a dict, because the comprehension calls `opt.get` on each one (a non-dict
raises `AttributeError`, which the outer handler converts to the fallback). -/
def isObjB : JVal → Bool
  | JVal.obj _ => true
  | _ => false

/-- `opt.get("is_correct", False)` for a dict option. -/
def optGetIsCorrect (o : JVal) : JVal :=
  match o with
  | JVal.obj f => (dictGet? f "is_correct").getD (JVal.bool false)
  | _ => JVal.bool false

/-- Per-question validation and repair of `generate_knowledge_assessment`
(lines 347-361): require `question`, an `options` list of length ≥ 2 whose
entries are all dicts; if no option is truthy-correct, set the first option's
`is_correct` to `True` in place.  `none` models a raised exception (handled by
the fallback branch). -/
def validateQuestion (q : JVal) : Option JVal :=
  match q with
  | JVal.obj qf =>
    if !(containsKey qf "question") then none
    else
      match dictGet? qf "options" with
      | some (JVal.arr opts) =>
        if opts.length < 2 then none
        else if !(opts.all isObjB) then none
        else
          if (opts.filter fun o => pyTruthy (optGetIsCorrect o)).isEmpty then
            match opts with
            | JVal.obj f0 :: rest =>
              some (JVal.obj (dictSet qf "options"
                (JVal.arr (JVal.obj (dictSet f0 "is_correct" (JVal.bool true)) :: rest))))
            | _ => none
          else some (JVal.obj qf)
      | _ => none
  | _ => none

/-- Validate a list of questions in order, keeping the (possibly repaired)
questions; the first failure aborts the whole validation. -/
def validateQuestions : List JVal → Option (List JVal)
  | [] => some []
  | q :: rest =>
    match validateQuestion q with
    | none => none
    | some q' =>
      match validateQuestions rest with
      | none => none
      | some rest' => some (q' :: rest')

/-- Whole-assessment validation of `generate_knowledge_assessment`
(lines 340-362): a dict with a `questions` list of length ≥ 1, each question
validated/repaired in place. -/
def gka_validate (a : JVal) : Option JVal :=
  match a with
  | JVal.obj f =>
    match dictGet? f "questions" with
    | some (JVal.arr qs) =>
      if qs.length < 1 then none
      else
        match validateQuestions qs with
        | some qs2 => some (JVal.obj (dictSet f "questions" (JVal.arr qs2)))
        | none => none
    | _ => none
  | _ => none

/-! ## The three generation operations (`agent.py`), as functions of the raw
model response text -/

/-- Extraction step of `generate_decision_points` (lines 113-127): strip the
content, search for the bracketed-array pattern first; only when it is absent,
remove code-fence markers and parse the entire remaining content. -/
def dp_extract (raw : String) : Option JVal :=
  match bracketSearch (trimBy isWsChar raw.toList) with
  | some js => json_loads_l js
  | none => json_loads_l (trimBy isWsChar (removeFences (trimBy isWsChar raw.toList)))

/-- `generate_decision_points`, given the model response text: extraction then
validation; any failure (caught exception or explicit check) yields `None`. -/
def generate_decision_points_from (raw : String) : Option JVal :=
  (dp_extract raw).bind validate_decision_points

/-- Extraction step of `generate_decision_point` (lines 181-190): strip,
remove code-fence markers, strip again, parse the whole content. -/
def dpoint_extract (raw : String) : Option JVal :=
  json_loads_l (trimBy isWsChar (removeFences (trimBy isWsChar raw.toList)))

/-- `generate_decision_point`, given the model response text. -/
def generate_decision_point_from (raw : String) : Option JVal :=
  (dpoint_extract raw).bind validate_decision_point

/-- Extraction step of `generate_knowledge_assessment` (lines 323-337): try a
direct parse of the stripped content; on failure parse the interior of a
```` ```json ```` fenced block; otherwise fail (the raised `ValueError` is
handled by the fallback branch). -/
def gka_extract (raw : String) : Option JVal :=
  match json_loads_l (trimBy isWsChar raw.toList) with
  | some j => some j
  | none =>
    match findFenceJson (trimBy isWsChar raw.toList) with
    | some g => json_loads_l g
    | none => none

/-- The static fallback assessment returned by `generate_knowledge_assessment`
on any failure (lines 368-401), parameterized only by the scenario domain. -/
def fallback_assessment (scenario_domain : String) : JVal :=
  JVal.obj [("questions", JVal.arr [
    JVal.obj [
      ("question", JVal.str ("What is the most important first step when dealing with a "
        ++ scenario_domain ++ " threat?")),
      ("options", JVal.arr [
        JVal.obj [("text", JVal.str "Immediately shut down all systems"),
                  ("is_correct", JVal.bool false)],
        JVal.obj [("text", JVal.str "Report the incident to your security team"),
                  ("is_correct", JVal.bool true)],
        JVal.obj [("text", JVal.str "Try to fix the issue yourself"),
                  ("is_correct", JVal.bool false)],
        JVal.obj [("text", JVal.str "Ignore it if it doesn\x27t affect your work"),
                  ("is_correct", JVal.bool false)]]),
      ("explanation", JVal.str ("When facing a " ++ scenario_domain
        ++ " threat, the first step should always be to report it to your security team who have the expertise to handle it properly."))],
    JVal.obj [
      ("question", JVal.str ("Which of the following is a best practice for "
        ++ scenario_domain ++ " prevention?")),
      ("options", JVal.arr [
        JVal.obj [("text", JVal.str "Only check emails during certain hours"),
                  ("is_correct", JVal.bool false)],
        JVal.obj [("text", JVal.str "Share security responsibilities with colleagues"),
                  ("is_correct", JVal.bool false)],
        JVal.obj [("text", JVal.str "Regularly update software and security patches"),
                  ("is_correct", JVal.bool true)],
        JVal.obj [("text", JVal.str "Use the same password for all accounts"),
                  ("is_correct", JVal.bool false)]]),
      ("explanation", JVal.str "Regular updates ensure that known vulnerabilities are patched, significantly reducing the risk of security breaches.")],
    JVal.obj [
      ("question", JVal.str "Why is security awareness training important?"),
      ("options", JVal.arr [
        JVal.obj [("text", JVal.str "It\x27s only important for IT staff"),
                  ("is_correct", JVal.bool false)],
        JVal.obj [("text", JVal.str "It helps all employees recognize and respond to threats"),
                  ("is_correct", JVal.bool true)],
        JVal.obj [("text", JVal.str "It\x27s a regulatory requirement but has little practical value"),
                  ("is_correct", JVal.bool false)],
        JVal.obj [("text", JVal.str "It only matters for large enterprises"),
                  ("is_correct", JVal.bool false)]]),
      ("explanation", JVal.str "Security awareness training is crucial for all employees as human error is often the weakest link in security. Well-trained employees can serve as an effective first line of defense.")]])]

/-- `generate_knowledge_assessment`, given the model response text: any
failure in extraction or validation degrades to the static fallback. -/
def generate_knowledge_assessment_from (scenario_domain raw : String) : JVal :=
  match (gka_extract raw).bind gka_validate with
  | some a => a
  | none => fallback_assessment scenario_domain

/-! ## `prompts.py` — the scenario-generation template and its formatting -/

/-- `SCENARIO_GENERATION_PROMPT.format(...)` (`prompts.py` lines 18-38,
`agent.py` lines 78-84): the template text with the five placeholders
substituted.  Transliterated segment by segment from the template literal. -/
def scenario_generation_prompt (security_domain threat_type industry role experience_level : String) : String :=
  "\nCreate an engaging cybersecurity scenario focused on " ++ security_domain
    ++ " threats, specifically " ++ threat_type
    ++ ".\nThe scenario should be tailored for someone in the " ++ industry
    ++ " industry with a " ++ role
    ++ " role and " ++ experience_level
    ++ " experience level.\n\nYour scenario should:\n1. Begin with a realistic situation that the user might encounter\n2. Include specific details that make it relevant to their industry and role\n3. Present a cybersecurity challenge that requires decision-making\n4. Be educational while remaining engaging\n5. Be written in second person (\"you\")\n6. Be approximately 150-200 words\n\nFormat the scenario as HTML with appropriate paragraph breaks for readability. Include the following sections ONLY:\n- A heading with the threat type (e.g., \"Phishing Threat Scenario\")\n- A brief introduction to the type of threat (bullet points of common attack vectors)\n- An \"Initial Situation\" heading followed by the scenario description\n\nDO NOT include any decision points or questions - these will be generated separately.\n\nMake sure your content is well-structured with clear headings and paragraphs for optimal readability in both light and dark mode interfaces.\n"

/-- `v` occurs literally inside `s`. -/
def StrContains (v s : String) : Prop :=
  ∃ a b, s = a ++ v ++ b

/-! ## `scenarios.py` — scenario classes and factory -/

/-- `DecisionPoint` dataclass. -/
structure DecisionPoint where
  question : String
  options : List (List (String × String))
  correct_option_index : Int
  explanation : String

/-- `LearningMoment` dataclass. -/
structure LearningMoment where
  title : String
  content : String
  related_principle : String
  practical_tip : String

/-- `Scenario` (base class).  The single cosmetic attribute each subclass adds
is kept in `extra` as a (name, value) pair. -/
structure Scenario where
  title : String
  description : String
  security_domain : String
  difficulty : String
  industry_context : String
  decision_points : List DecisionPoint
  learning_moments : List LearningMoment
  completed : Bool
  extra : List (String × String)

/-- `Scenario.__init__`. -/
def Scenario.init (title description security_domain difficulty industry_context : String) :
    Scenario :=
  { title := title, description := description, security_domain := security_domain,
    difficulty := difficulty, industry_context := industry_context,
    decision_points := [], learning_moments := [], completed := false, extra := [] }

/-- The keyword arguments `create_scenario` forwards to a scenario class:
the four base fields plus the subclass-specific one. -/
structure ScenarioKwargs where
  title : String
  description : String
  difficulty : String
  industry_context : String
  extra : String

def PhishingScenario.init (kw : ScenarioKwargs) : Scenario :=
  { Scenario.init kw.title kw.description "phishing" kw.difficulty kw.industry_context with
    extra := [("phishing_type", kw.extra)] }

def RansomwareScenario.init (kw : ScenarioKwargs) : Scenario :=
  { Scenario.init kw.title kw.description "ransomware" kw.difficulty kw.industry_context with
    extra := [("ransom_amount", kw.extra)] }

def SocialEngineeringScenario.init (kw : ScenarioKwargs) : Scenario :=
  { Scenario.init kw.title kw.description "social_engineering" kw.difficulty kw.industry_context with
    extra := [("attack_vector", kw.extra)] }

def DataProtectionScenario.init (kw : ScenarioKwargs) : Scenario :=
  { Scenario.init kw.title kw.description "data_protection" kw.difficulty kw.industry_context with
    extra := [("data_type", kw.extra)] }

def NetworkSecurityScenario.init (kw : ScenarioKwargs) : Scenario :=
  { Scenario.init kw.title kw.description "network_security" kw.difficulty kw.industry_context with
    extra := [("network_type", kw.extra)] }

/-- The `scenario_classes` mapping of `create_scenario`. -/
def scenario_classes : List (String × (ScenarioKwargs → Scenario)) :=
  [("phishing", PhishingScenario.init),
   ("ransomware", RansomwareScenario.init),
   ("social_engineering", SocialEngineeringScenario.init),
   ("data_protection", DataProtectionScenario.init),
   ("network_security", NetworkSecurityScenario.init)]

/-- `create_scenario` (`scenarios.py` lines 169-191): `ValueError` becomes
`Except.error`. -/
def create_scenario (domain : String) (kw : ScenarioKwargs) : Except String Scenario :=
  match dictGet? scenario_classes domain with
  | some ctor => Except.ok (ctor kw)
  | none => Except.error ("Unknown scenario domain: " ++ domain)

/-- Did the call raise? -/
def exceptIsError {ε α : Type} : Except ε α → Bool
  | Except.error _ => true
  | Except.ok _ => false

/-- The five known domains, in `scenario_classes` order. -/
def knownDomains : List String :=
  ["phishing", "ransomware", "social_engineering", "data_protection", "network_security"]

/-! ## `user_profile.py` — profile state and operations -/

/-- A Python value stored in the `personal_info` / `preferences` dicts. -/
inductive PVal where
  | s : String → PVal
  | i : Int → PVal
deriving DecidableEq

/-- A `mistakes` / `correct_decisions` entry; only its `area` key is read. -/
structure AreaRec where
  area : String
deriving DecidableEq

/-- The `performance_data` dict passed to `record_scenario_completion`:
`none` models an absent key (and, for the truthiness-guarded list keys, a
falsy `None` value, which the code treats the same as absent). -/
structure PerformanceData where
  points_earned : Option Int := none
  skill_impacts : Option (List (String × Int)) := none
  mistakes : Option (List AreaRec) := none
  correct_decisions : Option (List AreaRec) := none
deriving DecidableEq

/-- A `completed_scenarios` entry. -/
structure CompletionRecord where
  scenario_id : String
  completed_at : String
  performance : PerformanceData
deriving DecidableEq

/-- The `progress` section. -/
structure Progress where
  completed_scenarios : List CompletionRecord
  current_scenario : Option String
  skill_levels : List (String × Int)
  achievements : List String
  total_points : Int
deriving DecidableEq

/-- The `assessment` section. -/
structure Assessment where
  knowledge_gaps : List String
  strengths : List String
  recommended_focus_areas : List String
deriving DecidableEq

/-- The whole profile document (`UserProfile.profile`). -/
structure Profile where
  user_id : String
  created_at : String
  last_updated : String
  personal_info : List (String × PVal)
  progress : Progress
  preferences : List (String × PVal)
  assessment : Assessment
deriving DecidableEq

/-- The fresh profile built by `UserProfile.__init__` (file loading is an
external effect; `now` stands for `datetime.now().isoformat()`). -/
def initialProfile (user_id now : String) : Profile :=
  { user_id := user_id, created_at := now, last_updated := now,
    personal_info :=
      [("name", PVal.s ""), ("email", PVal.s ""), ("industry", PVal.s ""),
       ("role", PVal.s ""), ("experience_level", PVal.s "beginner")],
    progress :=
      { completed_scenarios := [], current_scenario := none,
        skill_levels :=
          [("phishing_awareness", 0), ("ransomware_prevention", 0),
           ("social_engineering_defense", 0), ("data_protection", 0),
           ("network_security", 0), ("incident_response", 0),
           ("password_management", 0), ("secure_communication", 0)],
        achievements := [], total_points := 0 },
    preferences :=
      [("learning_style", PVal.s "narrative"), ("difficulty", PVal.s "adaptive"),
       ("session_duration", PVal.i 15)],
    assessment :=
      { knowledge_gaps := [], strengths := [], recommended_focus_areas := [] } }

/-- `save`: its only in-memory effect is refreshing `last_updated`. -/
def Profile.save (p : Profile) (now : String) : Profile :=
  { p with last_updated := now }

/-- `update_personal_info(**kwargs)`: assign each keyword argument whose key
already exists in `personal_info`, then save. -/
def update_personal_info (p : Profile) (kwargs : List (String × PVal)) (now : String) :
    Profile :=
  Profile.save
    { p with personal_info :=
        kwargs.foldl (fun d kv => dictSetIfPresent d kv.1 kv.2) p.personal_info }
    now

/-- `update_preferences(**kwargs)`. -/
def update_preferences (p : Profile) (kwargs : List (String × PVal)) (now : String) :
    Profile :=
  Profile.save
    { p with preferences :=
        kwargs.foldl (fun d kv => dictSetIfPresent d kv.1 kv.2) p.preferences }
    now

/-- `set_current_scenario`. -/
def set_current_scenario (p : Profile) (scenario_id : String) (now : String) : Profile :=
  Profile.save
    { p with progress := { p.progress with current_scenario := some scenario_id } }
    now

/-- One `skill_impacts` item: `if skill in levels: levels[skill] =
max(0, min(10, levels[skill] + impact))`. -/
def applyImpact (d : List (String × Int)) (skill : String) (impact : Int) :
    List (String × Int) :=
  match dictGet? d skill with
  | some cur => dictSetIfPresent d skill (max 0 (min 10 (cur + impact)))
  | none => d

/-- Append each area that is not already present (`if x not in l: l.append(x)`). -/
def appendNewAreas (l : List String) (ms : List AreaRec) : List String :=
  ms.foldl (fun acc m => if acc.contains m.area then acc else acc ++ [m.area]) l

/-- `_calculate_recommended_focus_areas`: gaps that are not strengths, first 3. -/
def calculate_recommended_focus_areas (p : Profile) : Profile :=
  { p with assessment :=
      { p.assessment with recommended_focus_areas :=
          (p.assessment.knowledge_gaps.filter
            fun gap => !(p.assessment.strengths.contains gap)).take 3 } }

/-- `_update_assessment`: extend gaps from `mistakes`, strengths from
`correct_decisions` (both guarded by presence and truthiness), then recompute
the recommended focus areas. -/
def update_assessment (p : Profile) (pd : PerformanceData) : Profile :=
  calculate_recommended_focus_areas
    { p with assessment :=
        { p.assessment with
          knowledge_gaps :=
            (match pd.mistakes with
             | some ms => if ms.isEmpty then p.assessment.knowledge_gaps
                          else appendNewAreas p.assessment.knowledge_gaps ms
             | none => p.assessment.knowledge_gaps),
          strengths :=
            (match pd.correct_decisions with
             | some ds => if ds.isEmpty then p.assessment.strengths
                          else appendNewAreas p.assessment.strengths ds
             | none => p.assessment.strengths) } }

/-- `record_scenario_completion` (`user_profile.py` lines 118-150). -/
def record_scenario_completion (p : Profile) (scenario_id : String)
    (pd : PerformanceData) (now : String) : Profile :=
  let p1 :=
    { p with progress :=
        { p.progress with
          completed_scenarios := p.progress.completed_scenarios
            ++ [{ scenario_id := scenario_id, completed_at := now, performance := pd }],
          current_scenario := none } }
  let p2 :=
    match pd.skill_impacts with
    | some impacts =>
      { p1 with progress :=
          { p1.progress with skill_levels :=
              (impacts.foldl (fun d si => applyImpact d si.1 si.2)
                p1.progress.skill_levels) } }
    | none => p1
  let p3 :=
    match pd.points_earned with
    | some pts =>
      { p2 with progress :=
          { p2.progress with total_points := p2.progress.total_points + pts } }
    | none => p2
  Profile.save (update_assessment p3 pd) now

/-- `get_skill_level`: `skill_levels.get(skill, 0)`. -/
def get_skill_level (p : Profile) (skill : String) : Int :=
  (dictGet? p.progress.skill_levels skill).getD 0

/-- `get_recommended_scenarios`. -/
def get_recommended_scenarios (p : Profile) : List String :=
  p.assessment.recommended_focus_areas

/-! ## Contiguous-substring machinery for the unparseable-text theorems -/

/-- `l` is a contiguous segment of `s`. -/
def SubSeg (l s : List Char) : Prop :=
  ∃ a b, s = a ++ l ++ b

theorem subseg_refl (s : List Char) : SubSeg s s :=
  ⟨[], [], by simp⟩

theorem subseg_dropTake (cs : List Char) (i n : Nat) :
    SubSeg ((cs.drop i).take n) cs := by
  refine ⟨cs.take i, (cs.drop i).drop n, ?_⟩
  rw [List.append_assoc, List.take_append_drop, List.take_append_drop]

theorem subseg_trans {l m s : List Char} (h1 : SubSeg l m) (h2 : SubSeg m s) :
    SubSeg l s := by
  obtain ⟨a, b, rfl⟩ := h1
  obtain ⟨c, d, rfl⟩ := h2
  exact ⟨c ++ a, b ++ d, by simp⟩

theorem trimBy_subseg (p : Char → Bool) (cs : List Char) :
    SubSeg (trimBy p cs) cs := by
  refine ⟨cs.takeWhile p, ((cs.dropWhile p).reverse.takeWhile p).reverse, ?_⟩
  have h2 : ((cs.dropWhile p).reverse.takeWhile p) ++ ((cs.dropWhile p).reverse.dropWhile p)
      = (cs.dropWhile p).reverse := List.takeWhile_append_dropWhile p _
  have h3 : cs.dropWhile p
      = trimBy p cs ++ ((cs.dropWhile p).reverse.takeWhile p).reverse := by
    have := congrArg List.reverse h2
    rw [List.reverse_append, List.reverse_reverse] at this
    rw [trimBy]
    exact this.symm
  calc cs = cs.takeWhile p ++ cs.dropWhile p := (List.takeWhile_append_dropWhile p cs).symm
    _ = cs.takeWhile p ++ (trimBy p cs ++ ((cs.dropWhile p).reverse.takeWhile p).reverse) := by
        rw [← h3]
    _ = cs.takeWhile p ++ trimBy p cs ++ ((cs.dropWhile p).reverse.takeWhile p).reverse := by
        rw [List.append_assoc]

/-- Every contiguous segment of `cs` (including `cs` itself and the empty
segment) fails to parse as JSON.  This is the executable reading of "no JSON
can be parsed from the text". -/
def allSubUnparseable (cs : List Char) : Bool :=
  (List.range (cs.length + 1)).all fun i =>
    (List.range (cs.length + 1 - i)).all fun n =>
      (json_loads_l ((cs.drop i).take n)).isNone

theorem allSubUnparseable_spec {cs : List Char} (h : allSubUnparseable cs = true) :
    ∀ l, SubSeg l cs → json_loads_l l = none := by
  intro l hsub
  obtain ⟨a, b, hab⟩ := hsub
  have hlen : cs.length = a.length + l.length + b.length := by
    subst hab; simp [List.length_append]; omega
  have hacs : cs = a ++ (l ++ b) := by rw [hab, List.append_assoc]
  have hi : a.length < cs.length + 1 := by omega
  have hn : l.length < cs.length + 1 - a.length := by omega
  have h1 := (List.all_eq_true.mp h) a.length (List.mem_range.mpr hi)
  have h2 := (List.all_eq_true.mp h1) l.length (List.mem_range.mpr hn)
  have he : (cs.drop a.length).take l.length = l := by
    rw [hacs, List.drop_left, List.take_left]
  rw [he] at h2
  exact Option.isNone_iff_eq_none.mp h2

theorem bracketSearch_subseg {cs m : List Char} (h : bracketSearch cs = some m) :
    SubSeg m cs := by
  unfold bracketSearch at h
  cases hf : (List.range cs.length).find? (fun i => bracketMatchOk cs i) with
  | none => rw [hf] at h; cases h
  | some i =>
    rw [hf] at h
    cases h
    exact subseg_dropTake cs i _

theorem findFenceJson_subseg {cs m : List Char} (h : findFenceJson cs = some m) :
    SubSeg m cs := by
  unfold findFenceJson at h
  split at h
  · split at h
    · cases h
      exact subseg_trans (trimBy_subseg _ _) (subseg_dropTake cs _ _)
    · cases h
  · cases h

/-! ## C1 -/

/-- C1: for every model output from which no JSON can be parsed — no
contiguous segment of the (stripped) text parses, nor any segment of the text
with code-fence markers removed (the one other string the pipeline ever
parses) — `generate_decision_points` and `generate_decision_point` return
`None` and `generate_knowledge_assessment` returns the static fallback
assessment; totality of the Lean functions reflects that no exception escapes
(every raised exception is caught and converted to exactly these values). -/
theorem C1_unparseable_input_degrades_gracefully (raw scenario_domain : String)
    (h1 : allSubUnparseable (trimBy isWsChar raw.toList) = true)
    (h2 : allSubUnparseable (removeFences (trimBy isWsChar raw.toList)) = true) :
    generate_decision_points_from raw = none
    ∧ generate_decision_point_from raw = none
    ∧ generate_knowledge_assessment_from scenario_domain raw
        = fallback_assessment scenario_domain := by
  have key1 := allSubUnparseable_spec h1
  have key2 := allSubUnparseable_spec h2
  have hde : dp_extract raw = none := by
    unfold dp_extract
    cases hbs : bracketSearch (trimBy isWsChar raw.toList) with
    | some m => exact key1 m (bracketSearch_subseg hbs)
    | none => exact key2 _ (trimBy_subseg _ _)
  have hpe : dpoint_extract raw = none := key2 _ (trimBy_subseg _ _)
  have hke : gka_extract raw = none := by
    unfold gka_extract
    rw [key1 _ (subseg_refl _)]
    cases hf : findFenceJson (trimBy isWsChar raw.toList) with
    | some g => exact key1 g (findFenceJson_subseg hf)
    | none => rfl
  refine ⟨?_, ?_, ?_⟩
  · unfold generate_decision_points_from
    rw [hde]
    rfl
  · unfold generate_decision_point_from
    rw [hpe]
    rfl
  · unfold generate_knowledge_assessment_from
    rw [hke]
    rfl

/-- Witness for C1 at the concrete model output "no valid reply". -/
theorem C1_witness :
    allSubUnparseable (trimBy isWsChar ("no valid reply").toList) = true
    ∧ allSubUnparseable (removeFences (trimBy isWsChar ("no valid reply").toList)) = true
    ∧ (generate_decision_points_from "no valid reply" = none
       ∧ generate_decision_point_from "no valid reply" = none
       ∧ generate_knowledge_assessment_from "phishing" "no valid reply"
           = fallback_assessment "phishing") :=
  ⟨rfl, rfl, C1_unparseable_input_degrades_gracefully "no valid reply" "phishing" rfl rfl⟩

/-! ## C2 -/

theorem containsKey_of_dictGet {α : Type} {l : List (String × α)} {k : String} {v : α}
    (h : dictGet? l k = some v) : containsKey l k = true := by
  induction l with
  | nil => cases h
  | cons kv rest ih =>
    obtain ⟨k', v'⟩ := kv
    by_cases hk : k' = k
    · simp [containsKey, hk]
    · rw [dictGet?, if_neg hk] at h
      have := ih h
      simp [containsKey] at this ⊢
      exact Or.inr this

/-- The option is a dict whose `is_correct` entry is literally `false`. -/
def optHasFalseCorrect (o : JVal) : Bool :=
  match o with
  | JVal.obj f =>
    (match dictGet? f "is_correct" with
     | some (JVal.bool false) => true
     | _ => false)
  | _ => false

/-- C2 (amended): for a parsed question whose options all carry
`is_correct = false`, the assessment-path validator mutates exactly the first
option to `is_correct = true` and accepts, while the decision-points-path
validator accepts the very same zero-correct question unchanged — it neither
repairs nor rejects, because it only checks that `text` and `is_correct` are
present in each option. -/
theorem C2_zero_correct_repair_vs_accept
    (qf f0 : List (String × JVal)) (rest : List JVal)
    (hq : containsKey qf "question" = true)
    (hopts : dictGet? qf "options" = some (JVal.arr (JVal.obj f0 :: rest)))
    (hlen : 2 ≤ (JVal.obj f0 :: rest).length)
    (hfalse : ∀ o ∈ (JVal.obj f0 :: rest), optHasFalseCorrect o = true)
    (htext : ∀ o ∈ (JVal.obj f0 :: rest), pyMem "text" o = true) :
    validateQuestion (JVal.obj qf)
      = some (JVal.obj (dictSet qf "options"
          (JVal.arr (JVal.obj (dictSet f0 "is_correct" (JVal.bool true)) :: rest))))
    ∧ gka_validate (JVal.obj [("questions", JVal.arr [JVal.obj qf])])
      = some (JVal.obj [("questions", JVal.arr [JVal.obj (dictSet qf "options"
          (JVal.arr (JVal.obj (dictSet f0 "is_correct" (JVal.bool true)) :: rest)))])])
    ∧ validate_decision_points (JVal.arr [JVal.obj qf])
      = some (JVal.arr [JVal.obj qf]) := by
  have hobj : (JVal.obj f0 :: rest).all isObjB = true := by
    rw [List.all_eq_true]
    intro o ho
    have h := hfalse o ho
    cases o with
    | obj f => simp [isObjB]
    | null => exact Bool.noConfusion h
    | bool b => exact Bool.noConfusion h
    | num lex => exact Bool.noConfusion h
    | str s => exact Bool.noConfusion h
    | arr l => exact Bool.noConfusion h
  have hfilter :
      ((JVal.obj f0 :: rest).filter fun o => pyTruthy (optGetIsCorrect o)) = [] := by
    rw [List.filter_eq_nil_iff]
    intro o ho
    have h := hfalse o ho
    cases o with
    | obj f =>
      simp only [optHasFalseCorrect] at h
      cases hg : dictGet? f "is_correct" with
      | none => rw [hg] at h; exact Bool.noConfusion h
      | some v =>
        rw [hg] at h
        cases v with
        | bool b =>
          cases b with
          | false => simp [optGetIsCorrect, hg, pyTruthy]
          | true => exact Bool.noConfusion h
        | null => exact Bool.noConfusion h
        | num lex => exact Bool.noConfusion h
        | str s => exact Bool.noConfusion h
        | arr l => exact Bool.noConfusion h
        | obj f2 => exact Bool.noConfusion h
    | null => exact Bool.noConfusion h
    | bool b => exact Bool.noConfusion h
    | num lex => exact Bool.noConfusion h
    | str s => exact Bool.noConfusion h
    | arr l => exact Bool.noConfusion h
  have hlen' : ¬ ((JVal.obj f0 :: rest).length < 2) := by omega
  have hA : validateQuestion (JVal.obj qf)
      = some (JVal.obj (dictSet qf "options"
          (JVal.arr (JVal.obj (dictSet f0 "is_correct" (JVal.bool true)) :: rest)))) := by
    simp only [validateQuestion, hq, hopts, Bool.not_true, Bool.false_eq_true, if_false,
      if_neg hlen', hobj, hfilter, List.isEmpty_nil, if_true]
  refine ⟨hA, ?_, ?_⟩
  · have e2 : validateQuestions [JVal.obj qf]
        = some [JVal.obj (dictSet qf "options"
            (JVal.arr (JVal.obj (dictSet f0 "is_correct" (JVal.bool true)) :: rest)))] := by
      simp only [validateQuestions, hA]
    calc gka_validate (JVal.obj [("questions", JVal.arr [JVal.obj qf])])
        = (match validateQuestions [JVal.obj qf] with
           | some qs2 => some (JVal.obj
               (dictSet [("questions", JVal.arr [JVal.obj qf])] "questions" (JVal.arr qs2)))
           | none => none) := rfl
      _ = some (JVal.obj [("questions", JVal.arr [JVal.obj (dictSet qf "options"
            (JVal.arr (JVal.obj (dictSet f0 "is_correct" (JVal.bool true)) :: rest)))])]) := by
          rw [e2]
          rfl
  · have h2l : decide (2 ≤ (JVal.obj f0 :: rest).length) = true := decide_eq_true hlen
    have hall : (JVal.obj f0 :: rest).all optionOk = true := by
      rw [List.all_eq_true]
      intro o ho
      have h := hfalse o ho
      have ht := htext o ho
      cases o with
      | obj f =>
        simp only [optHasFalseCorrect] at h
        cases hg : dictGet? f "is_correct" with
        | none => rw [hg] at h; exact Bool.noConfusion h
        | some v =>
          unfold optionOk
          rw [ht]
          simp only [Bool.true_and]
          show containsKey f "is_correct" = true
          exact containsKey_of_dictGet hg
      | null => exact Bool.noConfusion h
      | bool b => exact Bool.noConfusion h
      | num lex => exact Bool.noConfusion h
      | str s => exact Bool.noConfusion h
      | arr l => exact Bool.noConfusion h
    have hpt : pointOk (JVal.obj qf) = true := by
      simp only [pointOk, hq, containsKey_of_dictGet hopts, hopts, h2l, hall,
        Bool.and_self, Bool.and_true, Bool.true_and]
    simp [validate_decision_points, hpt]

/-- The option dicts of the zero-correct counterexample question. -/
def c2opt1 : List (String × JVal) :=
  [("text", JVal.str "a"), ("is_correct", JVal.bool false)]

def c2opt2 : List (String × JVal) :=
  [("text", JVal.str "b"), ("is_correct", JVal.bool false)]

/-- A parsed decision point whose two options both carry `is_correct = false`. -/
def c2question : List (String × JVal) :=
  [("question", JVal.str "q"),
   ("options", JVal.arr [JVal.obj c2opt1, JVal.obj c2opt2])]

/-- The same input as raw model text. -/
def c2content : String :=
  "[\x7b\"question\": \"q\", \"options\": [\x7b\"text\": \"a\", \"is_correct\": false\x7d, \x7b\"text\": \"b\", \"is_correct\": false\x7d]\x7d]"

/-- C2 counterexample: the claim says a parsed question with zero correct
options is rejected on the decision-points path (the generation attempt
returns `None`).  In fact `generate_decision_points` accepts it and returns
the parsed list unchanged — no option text is repaired and the result is not
`None` — because its validation never looks at the `is_correct` values. -/
theorem C2_counterexample :
    validate_decision_points (JVal.arr [JVal.obj c2question])
      = some (JVal.arr [JVal.obj c2question])
    ∧ generate_decision_points_from c2content
      = some (JVal.arr [JVal.obj c2question]) :=
  ⟨rfl, rfl⟩

/-- Witness for C2 (amended) at the concrete zero-correct question: both
hypothesis checks and the instantiated conclusions. -/
theorem C2_witness :
    containsKey c2question "question" = true
    ∧ dictGet? c2question "options" = some (JVal.arr [JVal.obj c2opt1, JVal.obj c2opt2])
    ∧ validateQuestion (JVal.obj c2question)
        = some (JVal.obj (dictSet c2question "options"
            (JVal.arr [JVal.obj (dictSet c2opt1 "is_correct" (JVal.bool true)),
                       JVal.obj c2opt2])))
    ∧ gka_validate (JVal.obj [("questions", JVal.arr [JVal.obj c2question])])
        = some (JVal.obj [("questions", JVal.arr [JVal.obj (dictSet c2question "options"
            (JVal.arr [JVal.obj (dictSet c2opt1 "is_correct" (JVal.bool true)),
                       JVal.obj c2opt2]))])]) :=
  ⟨rfl, rfl,
    (C2_zero_correct_repair_vs_accept c2question c2opt1 [JVal.obj c2opt2]
      rfl rfl (by decide) (by decide) (by decide)).1,
    (C2_zero_correct_repair_vs_accept c2question c2opt1 [JVal.obj c2opt2]
      rfl rfl (by decide) (by decide) (by decide)).2.1⟩

/-! ## C3 -/

/-- Modelled from the spec (section 4.2, step (b)): a fenced block delimited
by triple-backtick markers, *optionally* labeled "json"; its interior is the
candidate JSON text. -/
def findFenceSpec (cs : List Char) : Option (List Char) :=
  match findTripleTick cs 0 with
  | none => none
  | some p =>
    match findTripleTick cs (p + 3 + (if matchAt cs (("json").toList) (p + 3) then 4 else 0)) with
    | some m =>
      some (trimBy isWsChar
        ((cs.drop (p + 3 + (if matchAt cs (("json").toList) (p + 3) then 4 else 0))).take
          (m - (p + 3 + (if matchAt cs (("json").toList) (p + 3) then 4 else 0)))))
    | none => none

/-- Modelled from the spec (section 4.2, step (c)): position just past the
closer matching the opener at `pos` (simple depth counting). -/
def matchingClose : Nat → List Char → Char → Char → Nat → Nat → Option Nat
  | 0, _, _, _, _, _ => none
  | Nat.succ fuel, cs, o, c, pos, depth =>
    match (cs.drop pos).head? with
    | none => none
    | some ch =>
      if ch = o then matchingClose fuel cs o c (pos + 1) (depth + 1)
      else if ch = c then
        (if depth = 1 then some (pos + 1) else matchingClose fuel cs o c (pos + 1) (depth - 1))
      else matchingClose fuel cs o c (pos + 1) depth

/-- Modelled from the spec (section 4.2, step (c)): the first top-level
bracketed array or braced object of the expected container type. -/
def firstBalanced (o c : Char) (cs : List Char) : Option (List Char) :=
  match (List.range cs.length).find? (fun i => (cs.drop i).head? == some o) with
  | none => none
  | some i =>
    match matchingClose (cs.length + 1) cs o c i 0 with
    | some e => some ((cs.drop i).take (e - i))
    | none => none

/-- Modelled from the spec (section 4.2): the extraction algorithm the spec
prescribes — (a) direct parse of the whole trimmed text; (b) on failure, a
triple-backtick fenced block's interior; (c) on failure, the first top-level
bracketed array / braced object matching the expected container type. -/
def extract_spec (expectArr : Bool) (raw : String) : Option JVal :=
  match json_loads_l (trimBy isWsChar raw.toList) with
  | some j => some j
  | none =>
    match findFenceSpec (trimBy isWsChar raw.toList) with
    | some g =>
      (match json_loads_l g with
       | some j => some j
       | none =>
         match firstBalanced (if expectArr then '[' else '{')
             (if expectArr then ']' else '}') (trimBy isWsChar raw.toList) with
         | some s => json_loads_l s
         | none => none)
    | none =>
      match firstBalanced (if expectArr then '[' else '{')
          (if expectArr then ']' else '}') (trimBy isWsChar raw.toList) with
      | some s => json_loads_l s
      | none => none

/-- A model response that is valid JSON as a whole and also contains an inner
bracketed array. -/
def c3content : String := "\x7b\"a\": [\x7b\"b\": 1\x7d]\x7d"

/-- C3 counterexample: the claim says extraction proceeds (a) direct parse,
then (b) fenced block, then (c) bracket pattern.  On `c3content` the
decision-points path yields the inner array (its bracket regex runs *first*),
while the spec's algorithm would yield the whole object at step (a) — so the
code does not implement the claimed order. -/
theorem C3_counterexample : dp_extract c3content ≠ extract_spec true c3content := by
  intro h
  rw [show dp_extract c3content = some (JVal.arr [JVal.obj [("b", JVal.num "1")]]) from rfl,
      show extract_spec true c3content
        = some (JVal.obj [("a", JVal.arr [JVal.obj [("b", JVal.num "1")]])]) from rfl] at h
  exact JVal.noConfusion (Option.some.inj h)

/-- C3 (amended): the actual extraction orders.  `generate_decision_points`
consults the bracketed-array regex *first* and only on failure strips fence
markers and direct-parses the whole text; `generate_decision_point` only
strips fence markers and direct-parses; `generate_knowledge_assessment`
direct-parses first, then tries a ```` ```json ```` fenced block, and has no
bracket-pattern step.  Each path fails exactly when its own attempts fail. -/
theorem C3_extraction_order (raw : String) :
    (∀ m, bracketSearch (trimBy isWsChar raw.toList) = some m →
        dp_extract raw = json_loads_l m)
    ∧ (bracketSearch (trimBy isWsChar raw.toList) = none →
        dp_extract raw
          = json_loads_l (trimBy isWsChar (removeFences (trimBy isWsChar raw.toList))))
    ∧ dpoint_extract raw
        = json_loads_l (trimBy isWsChar (removeFences (trimBy isWsChar raw.toList)))
    ∧ (∀ j, json_loads_l (trimBy isWsChar raw.toList) = some j →
        gka_extract raw = some j)
    ∧ (json_loads_l (trimBy isWsChar raw.toList) = none →
        gka_extract raw
          = (match findFenceJson (trimBy isWsChar raw.toList) with
             | some g => json_loads_l g
             | none => none)) := by
  refine ⟨?_, ?_, rfl, ?_, ?_⟩
  · intro m hm
    unfold dp_extract
    rw [hm]
  · intro hm
    unfold dp_extract
    rw [hm]
  · intro j hj
    unfold gka_extract
    rw [hj]
  · intro hj
    unfold gka_extract
    rw [hj]

/-- Witness for C3 (amended): the bracket regex takes priority on a text that
contains an embedded array, and the assessment path direct-parses a bare
object. -/
theorem C3_witness :
    bracketSearch (trimBy isWsChar ("x [ \x7b\"a\": 1\x7d ] y").toList)
      = some (("[ \x7b\"a\": 1\x7d ]").toList)
    ∧ dp_extract "x [ \x7b\"a\": 1\x7d ] y" = json_loads_l (("[ \x7b\"a\": 1\x7d ]").toList)
    ∧ json_loads_l (trimBy isWsChar ("\x7b\"k\": 1\x7d").toList)
        = some (JVal.obj [("k", JVal.num "1")])
    ∧ gka_extract "\x7b\"k\": 1\x7d" = some (JVal.obj [("k", JVal.num "1")]) :=
  ⟨rfl, (C3_extraction_order "x [ \x7b\"a\": 1\x7d ] y").1 _ rfl, rfl,
    (C3_extraction_order "\x7b\"k\": 1\x7d").2.2.2.1 _ rfl⟩

/-! ## C4 -/

/-- The acceptance condition as the claim states it: the keys `question`,
`options` (and `html_content` when required) are present, `options` is a
sequence of at least 2 entries, and every entry has both `text` and
`is_correct` (presence in the sense of Python's `in` test, which for the
dict entries produced by a JSON object is key presence). -/
def claimPointOk (requireHtml : Bool) (p : JVal) : Bool :=
  match p with
  | JVal.obj f =>
    containsKey f "question" && containsKey f "options"
      && (!requireHtml || containsKey f "html_content")
      && (match dictGet? f "options" with
          | some (JVal.arr opts) =>
            decide (2 ≤ opts.length)
              && opts.all (fun o => pyMem "text" o && pyMem "is_correct" o)
          | _ => false)
  | _ => false

theorem pointOk_eq_claim (p : JVal) : pointOk p = claimPointOk false p := by
  cases p with
  | obj f =>
    simp only [pointOk, claimPointOk, Bool.not_false, Bool.true_or]
    cases h12 : (containsKey f "question" && containsKey f "options") <;> rfl
  | null => rfl
  | bool b => rfl
  | num lex => rfl
  | str s => rfl
  | arr l => rfl

/-- C4: the single-decision-point validator accepts exactly the parsed
structures satisfying the claimed condition (with `html_content` required) and
returns `None` for every other structure; the multi-decision-points validator
requires the same per-point condition without `html_content` (plus a nonempty
list).  At the operation level, any parsed structure violating the condition
makes `generate_decision_point` return `None`. -/
theorem C4_validator_accepts_iff (dp : JVal) (pts : List JVal) :
    validate_decision_point dp = (if claimPointOk true dp then some dp else none)
    ∧ validate_decision_points (JVal.arr pts)
      = (if decide (1 ≤ pts.length) && pts.all (claimPointOk false)
         then some (JVal.arr pts) else none)
    ∧ (∀ raw dp', dpoint_extract raw = some dp' → claimPointOk true dp' = false →
        generate_decision_point_from raw = none) := by
  have hval : ∀ d, validate_decision_point d
      = (if claimPointOk true d then some d else none) := by
    intro d
    cases d with
    | obj f =>
      simp only [validate_decision_point, claimPointOk, Bool.not_true, Bool.false_or]
      cases h123 : (containsKey f "question" && containsKey f "options"
          && containsKey f "html_content") with
      | false => rfl
      | true =>
        cases hg : dictGet? f "options" with
        | none => rfl
        | some v =>
          cases v with
          | arr opts => rfl
          | null => rfl
          | bool b => rfl
          | num lex => rfl
          | str s => rfl
          | obj f2 => rfl
    | null => rfl
    | bool b => rfl
    | num lex => rfl
    | str s => rfl
    | arr l => rfl
  refine ⟨hval dp, ?_, ?_⟩
  · have hfun : pointOk = claimPointOk false := funext pointOk_eq_claim
    cases pts with
    | nil => rfl
    | cons p rest =>
      rw [← hfun]
      simp only [validate_decision_points]
      rw [if_neg (by simp)]
      have hd : decide (1 ≤ (p :: rest).length) = true := by simp
      rw [hd, Bool.true_and]
  · intro raw dp' he hc
    unfold generate_decision_point_from
    rw [he]
    show validate_decision_point dp' = none
    rw [hval dp', hc]
    rfl

/-- Witness for C4: the model output `"{}"` parses to an empty dict, which
violates the claimed condition, so `generate_decision_point` returns `None`. -/
theorem C4_witness :
    dpoint_extract "\x7b\x7d" = some (JVal.obj [])
    ∧ claimPointOk true (JVal.obj []) = false
    ∧ generate_decision_point_from "\x7b\x7d" = none :=
  ⟨rfl, rfl,
    (C4_validator_accepts_iff JVal.null []).2.2 "\x7b\x7d" (JVal.obj []) rfl rfl⟩

/-! ## C5 -/

theorem record_total_points {pd : PerformanceData} (p : Profile) (sid now : String)
    {k : Int} (h : pd.points_earned = some k) :
    (record_scenario_completion p sid pd now).progress.total_points
      = p.progress.total_points + k := by
  cases hsi : pd.skill_impacts <;>
    simp [record_scenario_completion, update_assessment,
      calculate_recommended_focus_areas, Profile.save, h, hsi]

theorem record_completed_length (p : Profile) (sid now : String) (pd : PerformanceData) :
    (record_scenario_completion p sid pd now).progress.completed_scenarios.length
      = p.progress.completed_scenarios.length + 1 := by
  cases hsi : pd.skill_impacts <;> cases hpe : pd.points_earned <;>
    simp [record_scenario_completion, update_assessment,
      calculate_recommended_focus_areas, Profile.save, hsi, hpe]

/-- C5: recording two scenario completions with `points_earned = 80` adds
exactly 160 to `total_points` and exactly 2 to the length of
`completed_scenarios`, and both quantities grow monotonically call by call.
Reads (`get_skill_level`, `get_overall_skill_level`, `get_recommended_scenarios`)
are pure functions of the profile and cannot intervene in this embedding. -/
theorem C5_two_completions_add_160 (p : Profile) (sid1 sid2 now1 now2 : String)
    (pd1 pd2 : PerformanceData)
    (h1 : pd1.points_earned = some 80) (h2 : pd2.points_earned = some 80) :
    (record_scenario_completion (record_scenario_completion p sid1 pd1 now1) sid2 pd2 now2).progress.total_points
      = p.progress.total_points + 160
    ∧ (record_scenario_completion (record_scenario_completion p sid1 pd1 now1) sid2 pd2 now2).progress.completed_scenarios.length
      = p.progress.completed_scenarios.length + 2
    ∧ p.progress.total_points
      ≤ (record_scenario_completion p sid1 pd1 now1).progress.total_points
    ∧ (record_scenario_completion p sid1 pd1 now1).progress.total_points
      ≤ (record_scenario_completion (record_scenario_completion p sid1 pd1 now1) sid2 pd2 now2).progress.total_points
    ∧ p.progress.completed_scenarios.length
      ≤ (record_scenario_completion p sid1 pd1 now1).progress.completed_scenarios.length
    ∧ (record_scenario_completion p sid1 pd1 now1).progress.completed_scenarios.length
      ≤ (record_scenario_completion (record_scenario_completion p sid1 pd1 now1) sid2 pd2 now2).progress.completed_scenarios.length := by
  have e1 := record_total_points p sid1 now1 h1
  have e2 := record_total_points (record_scenario_completion p sid1 pd1 now1) sid2 now2 h2
  have l1 := record_completed_length p sid1 now1 pd1
  have l2 := record_completed_length (record_scenario_completion p sid1 pd1 now1) sid2 now2 pd2
  refine ⟨?_, ?_, ?_, ?_, ?_, ?_⟩ <;> omega

/-- Witness for C5 on the fresh profile. -/
theorem C5_witness :
    ({ points_earned := some 80 : PerformanceData }).points_earned = some 80
    ∧ (record_scenario_completion
        (record_scenario_completion (initialProfile "default" "t0") "s1"
          { points_earned := some 80 } "t1") "s2"
        { points_earned := some 80 } "t2").progress.total_points
      = (initialProfile "default" "t0").progress.total_points + 160 :=
  ⟨rfl,
    (C5_two_completions_add_160 (initialProfile "default" "t0") "s1" "s2" "t1" "t2"
      { points_earned := some 80 } { points_earned := some 80 } rfl rfl).1⟩

/-! ## C6 -/

theorem mem_dictSetIfPresent {α : Type} {d : List (String × α)} {k : String} {v : α}
    {kv : String × α} (h : kv ∈ dictSetIfPresent d k v) : kv ∈ d ∨ kv.2 = v := by
  induction d with
  | nil => cases h
  | cons hd rest ih =>
    obtain ⟨k', v'⟩ := hd
    by_cases hk : k' = k
    · rw [dictSetIfPresent, if_pos hk] at h
      rcases List.mem_cons.mp h with h1 | h1
      · right; rw [h1]
      · left; exact List.mem_cons_of_mem _ h1
    · rw [dictSetIfPresent, if_neg hk] at h
      rcases List.mem_cons.mp h with h1 | h1
      · left; rw [h1]; exact List.mem_cons_self _ _
      · rcases ih h1 with h2 | h2
        · left; exact List.mem_cons_of_mem _ h2
        · right; exact h2

theorem mem_applyImpact {d : List (String × Int)} {s : String} {i : Int}
    {kv : String × Int} (h : kv ∈ applyImpact d s i) :
    kv ∈ d ∨ (0 ≤ kv.2 ∧ kv.2 ≤ 10) := by
  unfold applyImpact at h
  cases hg : dictGet? d s with
  | none => rw [hg] at h; exact Or.inl h
  | some cur =>
    rw [hg] at h
    rcases mem_dictSetIfPresent h with h1 | h1
    · exact Or.inl h1
    · refine Or.inr ?_
      rw [h1]
      constructor
      · exact le_max_left 0 _
      · exact max_le (by norm_num) (min_le_left _ _)

theorem foldl_applyImpact_range (impacts : List (String × Int))
    (d : List (String × Int)) (h : ∀ kv ∈ d, 0 ≤ kv.2 ∧ kv.2 ≤ 10) :
    ∀ kv ∈ impacts.foldl (fun d si => applyImpact d si.1 si.2) d,
      0 ≤ kv.2 ∧ kv.2 ≤ 10 := by
  induction impacts generalizing d with
  | nil => exact h
  | cons si rest ih =>
    intro kv hkv
    refine ih (applyImpact d si.1 si.2) ?_ kv hkv
    intro kv2 hkv2
    rcases mem_applyImpact hkv2 with h1 | h1
    · exact h kv2 h1
    · exact h1

theorem dictGet?_exists_mem {α : Type} {d : List (String × α)} {k : String} {v : α}
    (h : dictGet? d k = some v) : ∃ k', (k', v) ∈ d := by
  induction d with
  | nil => cases h
  | cons hd rest ih =>
    obtain ⟨k', v'⟩ := hd
    by_cases hk : k' = k
    · rw [dictGet?, if_pos hk] at h
      exact ⟨k', by rw [Option.some.inj h]; exact List.mem_cons_self _ _⟩
    · rw [dictGet?, if_neg hk] at h
      obtain ⟨k2, hk2⟩ := ih h
      exact ⟨k2, List.mem_cons_of_mem _ hk2⟩

/-- C6: if all skill levels lie in [0, 10], then after
`record_scenario_completion` with arbitrary integer `skill_impacts` they still
do (each updated value is clamped by `max(0, min(10, ...))`); the other profile
operations leave `skill_levels` untouched, so the invariant is preserved by
every operation, and `get_skill_level` always reads a value in [0, 10]. -/
theorem C6_skill_levels_bounded (p : Profile) (sid now skill : String)
    (pd : PerformanceData) (kwargs : List (String × PVal))
    (h : ∀ kv ∈ p.progress.skill_levels, 0 ≤ kv.2 ∧ kv.2 ≤ 10) :
    (∀ kv ∈ (record_scenario_completion p sid pd now).progress.skill_levels,
        0 ≤ kv.2 ∧ kv.2 ≤ 10)
    ∧ (update_personal_info p kwargs now).progress.skill_levels
        = p.progress.skill_levels
    ∧ (update_preferences p kwargs now).progress.skill_levels
        = p.progress.skill_levels
    ∧ (set_current_scenario p sid now).progress.skill_levels
        = p.progress.skill_levels
    ∧ 0 ≤ get_skill_level p skill ∧ get_skill_level p skill ≤ 10 := by
  have hget : 0 ≤ get_skill_level p skill ∧ get_skill_level p skill ≤ 10 := by
    unfold get_skill_level
    cases hg : dictGet? p.progress.skill_levels skill with
    | none => exact ⟨le_refl 0, by norm_num⟩
    | some v =>
      obtain ⟨k', hk'⟩ := dictGet?_exists_mem hg
      exact h (k', v) hk'
  refine ⟨?_, rfl, rfl, rfl, hget.1, hget.2⟩
  have hskills : (record_scenario_completion p sid pd now).progress.skill_levels
      = (match pd.skill_impacts with
         | some impacts =>
           impacts.foldl (fun d si => applyImpact d si.1 si.2) p.progress.skill_levels
         | none => p.progress.skill_levels) := by
    cases hsi : pd.skill_impacts <;> cases hpe : pd.points_earned <;>
      simp [record_scenario_completion, update_assessment,
        calculate_recommended_focus_areas, Profile.save, hsi, hpe]
  rw [hskills]
  cases hsi : pd.skill_impacts with
  | none => exact h
  | some impacts => exact foldl_applyImpact_range impacts p.progress.skill_levels h

/-- Witness for C6 on the fresh profile with an out-of-range impact. -/
theorem C6_witness :
    (∀ kv ∈ (initialProfile "default" "t0").progress.skill_levels,
        0 ≤ kv.2 ∧ kv.2 ≤ 10)
    ∧ (∀ kv ∈ (record_scenario_completion (initialProfile "default" "t0") "s1"
          { skill_impacts := some [("phishing_awareness", 15), ("unknown_skill", -4)] }
          "t1").progress.skill_levels,
        0 ≤ kv.2 ∧ kv.2 ≤ 10) :=
  ⟨by decide,
    (C6_skill_levels_bounded (initialProfile "default" "t0") "s1" "t1"
      "phishing_awareness"
      { skill_impacts := some [("phishing_awareness", 15), ("unknown_skill", -4)] }
      [] (by decide)).1⟩

/-! ## C7 -/

/-- C7: after every assessment update (every `record_scenario_completion`
runs `_update_assessment`, which ends by recomputing the focus areas),
`recommended_focus_areas` equals the knowledge gaps that are not strengths,
in gap order, truncated to the first 3 — so its length is at most 3. -/
theorem C7_recommended_focus_areas (p : Profile) (sid now : String)
    (pd : PerformanceData) :
    (record_scenario_completion p sid pd now).assessment.recommended_focus_areas
      = ((record_scenario_completion p sid pd now).assessment.knowledge_gaps.filter
          fun gap =>
            !((record_scenario_completion p sid pd now).assessment.strengths.contains gap)).take 3
    ∧ (record_scenario_completion p sid pd now).assessment.recommended_focus_areas.length ≤ 3 := by
  have h1 : (record_scenario_completion p sid pd now).assessment.recommended_focus_areas
      = ((record_scenario_completion p sid pd now).assessment.knowledge_gaps.filter
          fun gap =>
            !((record_scenario_completion p sid pd now).assessment.strengths.contains gap)).take 3 := by
    cases hsi : pd.skill_impacts <;> cases hpe : pd.points_earned <;>
      simp [record_scenario_completion, update_assessment,
        calculate_recommended_focus_areas, Profile.save, hsi, hpe]
  refine ⟨h1, ?_⟩
  rw [h1, List.length_take]
  exact min_le_left _ _

/-! ## C8 -/

theorem contains_app_self (x v : String) : StrContains v (x ++ v) :=
  ⟨x, "", by simp⟩

theorem contains_append_left {v s : String} (t : String) (h : StrContains v s) :
    StrContains v (s ++ t) := by
  obtain ⟨a, b, rfl⟩ := h
  exact ⟨a, b ++ t, by simp [String.append_assoc]⟩

/-- C8: the formatted scenario-generation prompt contains every parameter
value as a literal substring — the security domain, threat type, industry,
role and experience level all occur verbatim in the prompt text. -/
theorem C8_prompt_contains_every_parameter
    (security_domain threat_type industry role experience_level : String) :
    StrContains security_domain
      (scenario_generation_prompt security_domain threat_type industry role experience_level)
    ∧ StrContains threat_type
      (scenario_generation_prompt security_domain threat_type industry role experience_level)
    ∧ StrContains industry
      (scenario_generation_prompt security_domain threat_type industry role experience_level)
    ∧ StrContains role
      (scenario_generation_prompt security_domain threat_type industry role experience_level)
    ∧ StrContains experience_level
      (scenario_generation_prompt security_domain threat_type industry role experience_level) := by
  unfold scenario_generation_prompt
  refine ⟨?_, ?_, ?_, ?_, ?_⟩ <;>
    (repeat first
      | exact contains_app_self _ _
      | apply contains_append_left)

/-! ## C9 -/

/-- C9: `create_scenario` raises `ValueError` exactly when the domain is not
one of the five known domains; for a known domain it returns a scenario whose
`security_domain` equals that domain, with empty `decision_points` and
`learning_moments` and `completed = False`. -/
theorem C9_create_scenario_domains (domain : String) (kw : ScenarioKwargs) :
    (exceptIsError (create_scenario domain kw) = true ↔ domain ∉ knownDomains)
    ∧ (∀ s, create_scenario domain kw = Except.ok s →
        s.security_domain = domain ∧ s.decision_points = []
        ∧ s.learning_moments = [] ∧ s.completed = false) := by
  unfold create_scenario scenario_classes
  simp only [dictGet?]
  split_ifs with h1 h2 h3 h4 h5
  · subst h1
    refine ⟨by simp [exceptIsError, knownDomains], ?_⟩
    intro s hs
    rw [← Except.ok.inj hs]
    exact ⟨rfl, rfl, rfl, rfl⟩
  · subst h2
    refine ⟨by simp [exceptIsError, knownDomains], ?_⟩
    intro s hs
    rw [← Except.ok.inj hs]
    exact ⟨rfl, rfl, rfl, rfl⟩
  · subst h3
    refine ⟨by simp [exceptIsError, knownDomains], ?_⟩
    intro s hs
    rw [← Except.ok.inj hs]
    exact ⟨rfl, rfl, rfl, rfl⟩
  · subst h4
    refine ⟨by simp [exceptIsError, knownDomains], ?_⟩
    intro s hs
    rw [← Except.ok.inj hs]
    exact ⟨rfl, rfl, rfl, rfl⟩
  · subst h5
    refine ⟨by simp [exceptIsError, knownDomains], ?_⟩
    intro s hs
    rw [← Except.ok.inj hs]
    exact ⟨rfl, rfl, rfl, rfl⟩
  · refine ⟨⟨fun _ => ?_, fun _ => rfl⟩, ?_⟩
    · intro hm
      simp only [knownDomains, List.mem_cons, List.not_mem_nil, or_false] at hm
      rcases hm with h | h | h | h | h
      · exact h1 h.symm
      · exact h2 h.symm
      · exact h3 h.symm
      · exact h4 h.symm
      · exact h5 h.symm
    · intro s hs
      exact hs.elim

/-- The keyword-argument set used in the C9 witness. -/
def c9kw : ScenarioKwargs :=
  { title := "t", description := "d", difficulty := "easy",
    industry_context := "tech", extra := "spear" }

/-- Witness for C9: an unknown domain raises, and the phishing domain yields a
fresh phishing scenario. -/
theorem C9_witness :
    exceptIsError (create_scenario "wifi_security" c9kw) = true
    ∧ ((PhishingScenario.init c9kw).security_domain = "phishing"
       ∧ (PhishingScenario.init c9kw).decision_points = []
       ∧ (PhishingScenario.init c9kw).learning_moments = []
       ∧ (PhishingScenario.init c9kw).completed = false) :=
  ⟨(C9_create_scenario_domains "wifi_security" c9kw).1.mpr (by decide),
    (C9_create_scenario_domains "phishing" c9kw).2 (PhishingScenario.init c9kw) rfl⟩

/-! ## C10 -/

theorem dictSetIfPresent_keys {α : Type} (d : List (String × α)) (k : String) (v : α) :
    (dictSetIfPresent d k v).map Prod.fst = d.map Prod.fst := by
  induction d with
  | nil => rfl
  | cons hd rest ih =>
    obtain ⟨k', v'⟩ := hd
    by_cases hk : k' = k
    · simp [dictSetIfPresent, hk]
    · simp [dictSetIfPresent, hk, ih]

theorem foldl_setIfPresent_keys (kwargs : List (String × PVal))
    (d : List (String × PVal)) :
    (kwargs.foldl (fun d kv => dictSetIfPresent d kv.1 kv.2) d).map Prod.fst
      = d.map Prod.fst := by
  induction kwargs generalizing d with
  | nil => rfl
  | cons kv rest ih => rw [List.foldl_cons, ih, dictSetIfPresent_keys]

theorem containsKey_eq_any_keys {α : Type} (l : List (String × α)) (k : String) :
    containsKey l k = (l.map Prod.fst).any (fun s => s == k) := by
  induction l with
  | nil => rfl
  | cons hd rest ih =>
    unfold containsKey at ih ⊢
    simp only [List.any_cons, List.map_cons]
    rw [ih]

/-- C10: `update_personal_info` and `update_preferences` assign only keys that
already exist in their sub-dictionary — the key set is unchanged, so unknown
keyword arguments are silently ignored (membership of any key is exactly what
it was before) — and every other section of the profile is left unchanged. -/
theorem C10_updates_touch_only_existing_keys (p : Profile)
    (kwargs : List (String × PVal)) (now k : String) :
    ((update_personal_info p kwargs now).personal_info.map Prod.fst
      = p.personal_info.map Prod.fst)
    ∧ containsKey (update_personal_info p kwargs now).personal_info k
      = containsKey p.personal_info k
    ∧ (update_personal_info p kwargs now).progress = p.progress
    ∧ (update_personal_info p kwargs now).assessment = p.assessment
    ∧ (update_personal_info p kwargs now).preferences = p.preferences
    ∧ (update_personal_info p kwargs now).user_id = p.user_id
    ∧ (update_personal_info p kwargs now).created_at = p.created_at
    ∧ ((update_preferences p kwargs now).preferences.map Prod.fst
      = p.preferences.map Prod.fst)
    ∧ containsKey (update_preferences p kwargs now).preferences k
      = containsKey p.preferences k
    ∧ (update_preferences p kwargs now).personal_info = p.personal_info
    ∧ (update_preferences p kwargs now).progress = p.progress
    ∧ (update_preferences p kwargs now).assessment = p.assessment
    ∧ (update_preferences p kwargs now).user_id = p.user_id
    ∧ (update_preferences p kwargs now).created_at = p.created_at := by
  have hk1 : (update_personal_info p kwargs now).personal_info.map Prod.fst
      = p.personal_info.map Prod.fst := foldl_setIfPresent_keys kwargs p.personal_info
  have hk2 : (update_preferences p kwargs now).preferences.map Prod.fst
      = p.preferences.map Prod.fst := foldl_setIfPresent_keys kwargs p.preferences
  refine ⟨hk1, ?_, rfl, rfl, rfl, rfl, rfl, hk2, ?_, rfl, rfl, rfl, rfl, rfl⟩
  · rw [containsKey_eq_any_keys, containsKey_eq_any_keys, hk1]
  · rw [containsKey_eq_any_keys, containsKey_eq_any_keys, hk2]
